import Mathlib

/-!
Shallow embedding of the retry/backoff core of the `linkup-go` repository
(`src/linkup/types.go`): the jittered exponential `backoff` helper with its
LCG randomness source, the client construction options, and the attempt
loops of `Client.Search`, `Client.Fetch` and `Client.GetBalance`.

Modelling conventions:
* Go `int`/`int64`/`time.Duration` are modelled as `Int` with 64-bit two's
  complement wraparound made explicit (`wrap64`) exactly where the Go
  arithmetic can overflow; Go `uint64` (the LCG state) is `Nat % 2^64`.
* `float64` arithmetic inside `backoff`/`randFloat` is idealized as exact
  rational arithmetic (`ℚ`); the final `time.Duration(...)` conversion
  truncates toward zero (`truncQ`).
* The HTTP transport (`c.http.Do`) is an external collaborator and is passed
  in as a function from the attempt index to its result; `encoding/json`
  unmarshalling of error bodies is likewise passed in as an oracle giving
  the final field values of the `APIError` struct after `json.Unmarshal`
  (whose error the Go code discards), and `json.Marshal` of the request
  body (which cannot fail for these struct types) is dropped.
* Byte strings are `List Nat`; HTTP statuses are `Int` (Go `int`).
* Each trace records, besides the outcome, the number of transport
  invocations, every duration handed to `time.Sleep` (in nanoseconds, in
  order), and the bytes read from each response body (in order).
-/

namespace Linkup

/-- Two's complement wraparound of a 64-bit signed integer, modelling Go
`int64` / `time.Duration` arithmetic where it can overflow. -/
def wrap64 (x : Int) : Int := (x + 2 ^ 63) % 2 ^ 64 - 2 ^ 63

/-- One step of the process-wide LCG used by `randFloat` (types.go:284):
`lcg = lcg*2862933555777941757 + 3037000493` on `uint64`. -/
def lcgNext (s : Nat) : Nat := (s * 2862933555777941757 + 3037000493) % 2 ^ 64

/-- `randFloat` (types.go:283-286): advances the LCG and returns
`float64(lcg%10000)/10000.0`, idealized in exact rational arithmetic.
Returns the value together with the updated LCG state. -/
def randFloat (s : Nat) : ℚ × Nat :=
  let s2 := lcgNext s
  (((s2 % 10000 : Nat) : ℚ) / 10000, s2)

/-- `backoff(attempt, min, max)` (types.go:269-278): exponential backoff with
jitter.  `d := min * (1 << attempt)` is 64-bit integer arithmetic and can
wrap; the clamp `if d > max` follows; then the jitter factor
`0.8 + 0.4*randFloat()` is applied in `float64` arithmetic and the product
converted back to a `time.Duration` (truncation toward zero).  Idealizing
the floats exactly, the factor is `(20000 + lcg%10000) / 25000` and the
truncated product is the truncating integer division below (see
`backoff_jitter_factor` for the correspondence with `randFloat`).  The LCG
state is threaded explicitly; the returned pair is (delay in ns, new LCG
state). -/
def backoff (attempt : Nat) (mn mx : Int) (seed : Nat) : Int × Nat :=
  let d0 : Int := wrap64 (mn * wrap64 (2 ^ attempt))
  let d : Int := if d0 > mx then mx else d0
  let s2 := lcgNext seed
  ((d * ((20000 : Int) + (s2 % 10000 : Nat))).tdiv 25000, s2)

/-- Numeric value of a list of decimal digit characters. -/
def digitsVal (l : List Char) : Nat := l.foldl (fun a c => a * 10 + (c.toNat - 48)) 0

/-- Go's `strconv.Atoi`: an optional single `+`/`-` sign followed by at
least one decimal digit, rejecting anything else (spaces, underscores,
empty input) and any value outside the 64-bit `int` range (Go reports a
range error, which the caller treats the same as a syntax error).  `none`
models a non-nil error. -/
def atoi (s : String) : Option Int :=
  let p : Int × List Char :=
    match s.toList with
    | '+' :: t => (1, t)
    | '-' :: t => (-1, t)
    | t => (1, t)
  if p.2 ≠ [] ∧ p.2.all Char.isDigit then
    let v : Int := p.1 * (digitsVal p.2 : Nat)
    if -2 ^ 63 ≤ v ∧ v ≤ 2 ^ 63 - 1 then some v else none
  else none

/-- An HTTP response as seen by `Client.Search`: status code, the
`Retry-After` header value (`res.Header.Get` returns `""` when the header
is absent), and the body bytes. -/
structure Response where
  status : Int
  retryAfter : String
  body : List Nat
deriving DecidableEq

/-- Result of one call of the injected transport (`c.http.Do`): either a
response or a transport error (connection refused, timeout, DNS...). -/
inductive TransportResult where
  | ok (res : Response)
  | err (e : String)
deriving DecidableEq

/-- Final field values of the `APIError` struct fields that
`json.Unmarshal` (types.go:213) may overwrite when decoding an error body:
the `status` field when the JSON body carries one, and the `message` field
(`""` when absent or when unmarshalling fails and leaves it untouched).
A decode oracle `List Nat → APIErrorBody` abstracts `encoding/json`. -/
structure APIErrorBody where
  statusField : Option Int
  message : String
deriving DecidableEq

/-- The terminal outcome of `Client.Search` / `Client.Fetch`, mirroring the
distinct `return` statements of the Go code. -/
inductive SearchOutcome where
  /-- 2xx: the body bytes, returned verbatim (`SearchResponse.Raw`). -/
  | success (payload : List Nat)
  /-- `errors.New(...)` before any network call (empty key / empty URL). -/
  | configError (msg : String)
  /-- the `c.http.Do` error returned after retries are exhausted. -/
  | transportError (e : String)
  /-- `ErrUnauthorized` (401). -/
  | unauthorized
  /-- `ErrForbidden` (403). -/
  | forbidden
  /-- the decoded `*APIError` (non-empty message). -/
  | apiError (status : Int) (message : String)
  /-- `fmt.Errorf("linkup: http %d", status)`. -/
  | genericHTTP (status : Int)
deriving DecidableEq

/-- Observable trace of one logical `Search`/`Fetch` call: the outcome, the
number of transport invocations, every duration handed to `time.Sleep`
(ns, in order) and the bytes read from each response body (in order). -/
structure SearchTrace where
  outcome : SearchOutcome
  attempts : Nat
  sleeps : List Int
  reads : List (List Nat)
deriving DecidableEq

/-- The `switch res.StatusCode` at types.go:231-241, reached for a non-2xx
response that is not being retried: 401 and 403 map to the sentinels, any
other status returns the decoded `APIError` when its message is non-empty
and the generic `http N` error otherwise. -/
def classifyTerminal (st : Int) (parsed : APIErrorBody) : SearchOutcome :=
  if st = 401 then .unauthorized
  else if st = 403 then .forbidden
  else if parsed.message ≠ "" then .apiError (parsed.statusField.getD st) parsed.message
  else .genericHTTP st

/-- The `Retry-After` handling at types.go:219-227: when the header is
present and `strconv.Atoi` parses it to a positive `secs`, sleep
`time.Duration(secs) * time.Second` (64-bit multiplication, hence `wrap64`)
without consuming randomness; otherwise sleep `backoff(attempt, ...)`.
Returns (sleep duration in ns, LCG state afterwards). -/
def retryAfterSleep (ra : String) (attempt : Nat) (mn mx : Int) (seed : Nat) : Int × Nat :=
  if ra ≠ "" then
    match atoi ra with
    | some secs =>
        if 0 < secs then (wrap64 (secs * 1000000000), seed)
        else backoff attempt mn mx seed
    | none => backoff attempt mn mx seed
  else backoff attempt mn mx seed

/-- The attempt loop of `Client.Search` (types.go:186-250).  `attempt` is
the 0-based attempt index of the Go loop; `rem` counts the retries still
allowed, i.e. `retries - attempt` in the Go code, so the Go guard
`attempt < retries` is `rem` matching `r + 1` here.  Per attempt: a
transport error retries (after `backoff`) while retries remain, else is
returned; a non-2xx response first reads up to 1 MiB of the body and
decodes it into an `APIError`, then retries 429/5xx while retries remain
(sleeping per `retryAfterSleep`), else classifies terminally; a 2xx
response reads the whole body and returns it. -/
def searchLoop (tr : Nat → TransportResult) (dec : List Nat → APIErrorBody)
    (mn mx : Int) : Nat → Nat → Nat → SearchTrace
  | rem, attempt, seed =>
    match tr attempt with
    | .err e =>
      match rem with
      | r + 1 =>
        let bs := backoff attempt mn mx seed
        let t := searchLoop tr dec mn mx r (attempt + 1) bs.2
        { t with attempts := t.attempts + 1, sleeps := bs.1 :: t.sleeps }
      | 0 => { outcome := .transportError e, attempts := 1, sleeps := [], reads := [] }
    | .ok res =>
      if res.status < 200 ∨ 300 ≤ res.status then
        let rd := res.body.take (2 ^ 20)
        let parsed := dec rd
        if res.status = 429 ∨ (500 ≤ res.status ∧ res.status ≤ 599) then
          match rem with
          | r + 1 =>
            let sl := retryAfterSleep res.retryAfter attempt mn mx seed
            let t := searchLoop tr dec mn mx r (attempt + 1) sl.2
            { t with attempts := t.attempts + 1, sleeps := sl.1 :: t.sleeps,
                     reads := rd :: t.reads }
          | 0 =>
            { outcome := classifyTerminal res.status parsed, attempts := 1,
              sleeps := [], reads := [rd] }
        else
          { outcome := classifyTerminal res.status parsed, attempts := 1,
            sleeps := [], reads := [rd] }
      else
        { outcome := .success res.body, attempts := 1, sleeps := [], reads := [res.body] }

/-- The `Client` configuration fields relevant to the executor (the
`http.Client` is replaced by the injected transport). -/
structure Client where
  apiKey : String
  baseURL : String
  ua : String
  maxRetries : Int
  minBackoff : Int
  maxBackoff : Int
deriving DecidableEq

/-- `strings.TrimRight(u, "/")`: strip every trailing `/`. -/
def trimRightSlash (u : String) : String :=
  String.mk ((u.toList.reverse.dropWhile (fun c => c = '/')).reverse)

/-- The functional options accepted by `NewClient` (types.go:54-82).
`WithHTTPClient` only replaces the transport, which lives outside the
modelled state. -/
inductive ClientOption where
  | withBaseURL (u : String)
  | withHTTPClient
  | withUserAgent (ua : String)
  | withRetry (maxRetries minBackoff maxBackoff : Int)
deriving DecidableEq

/-- Application of one option to the client under construction.
`withRetry` (types.go:70-82) guards each field separately: `maxRetries`
only if nonnegative, `minBackoff` only if positive, and `maxBackoff` only
if it is at least the (possibly just-updated) `minBackoff`. -/
def applyOption (c : Client) : ClientOption → Client
  | .withBaseURL u => { c with baseURL := trimRightSlash u }
  | .withHTTPClient => c
  | .withUserAgent ua => { c with ua := ua }
  | .withRetry r mnB mxB =>
    let c1 := if r ≥ 0 then { c with maxRetries := r } else c
    let c2 := if mnB > 0 then { c1 with minBackoff := mnB } else c1
    if mxB ≥ c2.minBackoff then { c2 with maxBackoff := mxB } else c2

/-- `NewClient` (types.go:85-99): the defaults (maxRetries 3, minBackoff
250ms, maxBackoff 4s, expressed in ns) followed by the options in order. -/
def newClient (apiKey : String) (opts : List ClientOption) : Client :=
  opts.foldl applyOption
    { apiKey := apiKey, baseURL := "https://api.linkup.so/v1",
      ua := "linkup-go/0.1 (+github.com/raezil/linkup-go)",
      maxRetries := 3, minBackoff := 250000000, maxBackoff := 4000000000 }

/-- `Client.Search` (types.go:174-253): empty API key fails before any
network call, otherwise the attempt loop runs with `retries := c.maxRetries`
(clamped at 0, which matches the Go guard `attempt < retries` for any
nonpositive `retries`), starting at attempt 0.  `tr` is the transport,
`dec` the error-body decode oracle, `seed` the LCG state at entry. -/
def clientSearch (c : Client) (tr : Nat → TransportResult)
    (dec : List Nat → APIErrorBody) (seed : Nat) : SearchTrace :=
  if c.apiKey = "" then
    { outcome := .configError "linkup: API key is empty", attempts := 0,
      sleeps := [], reads := [] }
  else
    searchLoop tr dec c.minBackoff c.maxBackoff c.maxRetries.toNat 0 seed

/-- `Client.Fetch` (types.go:298-344): empty API key, then empty URL, fail
before any network call; otherwise a single transport call, with 401/403
checked *before* the body is read, then the same non-2xx error-body
decoding as `Search` (1 MiB cap), and a verbatim body on 2xx.  No retry,
no sleep. -/
def clientFetch (c : Client) (url : String) (tr : TransportResult)
    (dec : List Nat → APIErrorBody) : SearchTrace :=
  if c.apiKey = "" then
    { outcome := .configError "linkup: API key is empty", attempts := 0,
      sleeps := [], reads := [] }
  else if url = "" then
    { outcome := .configError "linkup: fetch url is empty", attempts := 0,
      sleeps := [], reads := [] }
  else
    match tr with
    | .err e => { outcome := .transportError e, attempts := 1, sleeps := [], reads := [] }
    | .ok res =>
      if res.status = 401 then
        { outcome := .unauthorized, attempts := 1, sleeps := [], reads := [] }
      else if res.status = 403 then
        { outcome := .forbidden, attempts := 1, sleeps := [], reads := [] }
      else if res.status < 200 ∨ 300 ≤ res.status then
        let rd := res.body.take (2 ^ 20)
        let parsed := dec rd
        { outcome :=
            if parsed.message ≠ "" then
              .apiError (parsed.statusField.getD res.status) parsed.message
            else .genericHTTP res.status,
          attempts := 1, sleeps := [], reads := [rd] }
      else
        { outcome := .success res.body, attempts := 1, sleeps := [], reads := [res.body] }

/-- The terminal outcome of `Client.GetBalance`, whose success path decodes
the body into a `BalanceResponse` (a single float64 balance, idealized as
`ℚ`); a decode failure is returned as an error distinct from the others. -/
inductive BalanceOutcome where
  | success (balance : ℚ)
  | decodeError
  | configError (msg : String)
  | transportError (e : String)
  | unauthorized
  | forbidden
  | apiError (status : Int) (message : String)
  | genericHTTP (status : Int)
deriving DecidableEq

/-- Observable trace of one `GetBalance` call. -/
structure BalanceTrace where
  outcome : BalanceOutcome
  attempts : Nat
  sleeps : List Int
  reads : List (List Nat)
deriving DecidableEq

/-- `Client.GetBalance` (types.go:352-390): empty API key fails before any
network call; otherwise a single transport call with 401/403 checked before
the body read, the same non-2xx error-body decoding (1 MiB cap), and on 2xx
a JSON decode of the body into the balance (`decBal` abstracts
`json.NewDecoder(res.Body).Decode`; `none` is a decode error).  No retry,
no sleep. -/
def clientGetBalance (c : Client) (tr : TransportResult)
    (dec : List Nat → APIErrorBody) (decBal : List Nat → Option ℚ) : BalanceTrace :=
  if c.apiKey = "" then
    { outcome := .configError "linkup: API key is empty", attempts := 0,
      sleeps := [], reads := [] }
  else
    match tr with
    | .err e => { outcome := .transportError e, attempts := 1, sleeps := [], reads := [] }
    | .ok res =>
      if res.status = 401 then
        { outcome := .unauthorized, attempts := 1, sleeps := [], reads := [] }
      else if res.status = 403 then
        { outcome := .forbidden, attempts := 1, sleeps := [], reads := [] }
      else if res.status < 200 ∨ 300 ≤ res.status then
        let rd := res.body.take (2 ^ 20)
        let parsed := dec rd
        { outcome :=
            if parsed.message ≠ "" then
              .apiError (parsed.statusField.getD res.status) parsed.message
            else .genericHTTP res.status,
          attempts := 1, sleeps := [], reads := [rd] }
      else
        { outcome :=
            match decBal res.body with
            | some v => .success v
            | none => .decodeError,
          attempts := 1, sleeps := [], reads := [res.body] }

/-- A transport result the loop treats as retryable: any transport error,
or a response whose status is 429 or 5xx. -/
def RetryableOutcome : TransportResult → Prop
  | .err _ => True
  | .ok res => res.status = 429 ∨ (500 ≤ res.status ∧ res.status ≤ 599)

instance : (t : TransportResult) → Decidable (RetryableOutcome t)
  | .err _ => .isTrue trivial
  | .ok res => inferInstanceAs (Decidable (res.status = 429 ∨ (500 ≤ res.status ∧ res.status ≤ 599)))

/-- Outcomes that are terminal errors produced by exhausting retries:
the transport error, the decoded API error, or the generic HTTP error. -/
def TerminalErrorOutcome : SearchOutcome → Prop
  | .transportError _ => True
  | .apiError _ _ => True
  | .genericHTTP _ => True
  | _ => False

instance : (o : SearchOutcome) → Decidable (TerminalErrorOutcome o)
  | .success _ => .isFalse id
  | .configError _ => .isFalse id
  | .transportError _ => .isTrue trivial
  | .unauthorized => .isFalse id
  | .forbidden => .isFalse id
  | .apiError _ _ => .isTrue trivial
  | .genericHTTP _ => .isTrue trivial

/-- Well-formedness of the arguments of one option, as the spec demands it
of `WithRetry`: the supplied maximum backoff is at least the supplied
minimum backoff. -/
def RetryArgsLE : ClientOption → Prop
  | .withRetry _ mnB mxB => mnB ≤ mxB
  | _ => True

instance : (o : ClientOption) → Decidable (RetryArgsLE o)
  | .withBaseURL _ => .isTrue trivial
  | .withHTTPClient => .isTrue trivial
  | .withUserAgent _ => .isTrue trivial
  | .withRetry _ mnB mxB => inferInstanceAs (Decidable (mnB ≤ mxB))

/-- UTF-8-free byte view of an ASCII string, for concrete bodies. -/
def strBytes (s : String) : List Nat := s.toList.map Char.toNat

/-! ## Supporting lemmas -/

/-- `wrap64` is the identity on the 64-bit signed range. -/
lemma wrap64_eq_self {x : Int} (h1 : -2 ^ 63 ≤ x) (h2 : x < 2 ^ 63) : wrap64 x = x := by
  have h63 : (2 : Int) ^ 63 = 9223372036854775808 := by norm_num
  have h64 : (2 : Int) ^ 64 = 18446744073709551616 := by norm_num
  rw [wrap64, h63, h64, Int.emod_eq_of_lt (by omega) (by omega)]
  · omega

/-- A retryable status (429 or 5xx) is outside the 2xx range. -/
lemma retryable_status_non2xx {st : Int}
    (h : st = 429 ∨ (500 ≤ st ∧ st ≤ 599)) : st < 200 ∨ 300 ≤ st := by
  rcases h with h | ⟨h1, h2⟩ <;> omega

/-- A retryable status classifies into an API or generic error, never into
a sentinel, a success or a configuration error. -/
lemma classifyTerminal_retryable {st : Int}
    (h : st = 429 ∨ (500 ≤ st ∧ st ≤ 599)) (p : APIErrorBody) :
    TerminalErrorOutcome (classifyTerminal st p) := by
  have h401 : ¬ st = 401 := by rcases h with h | ⟨h1, h2⟩ <;> omega
  have h403 : ¬ st = 403 := by rcases h with h | ⟨h1, h2⟩ <;> omega
  simp only [classifyTerminal, if_neg h401, if_neg h403]
  split <;> trivial

/-- The loop performs at most `rem + 1` transport attempts. -/
lemma searchLoop_attempts_le (tr : Nat → TransportResult) (dec : List Nat → APIErrorBody)
    (mn mx : Int) : ∀ rem attempt seed : Nat,
    (searchLoop tr dec mn mx rem attempt seed).attempts ≤ rem + 1 := by
  intro rem
  induction rem with
  | zero =>
    intro attempt seed
    rw [searchLoop]
    cases htr : tr attempt with
    | err e => simp
    | ok res =>
      dsimp only
      split_ifs <;> simp
  | succ r ih =>
    intro attempt seed
    rw [searchLoop]
    cases htr : tr attempt with
    | err e =>
      dsimp only
      simpa using Nat.succ_le_succ (ih (attempt + 1) (backoff attempt mn mx seed).2)
    | ok res =>
      dsimp only
      split_ifs with h1 h2
      · simpa using Nat.succ_le_succ
          (ih (attempt + 1) (retryAfterSleep res.retryAfter attempt mn mx seed).2)
      · simp
      · simp

/-- A 2xx response ends the loop at once with the verbatim body. -/
lemma searchLoop_success (tr : Nat → TransportResult) (dec : List Nat → APIErrorBody)
    (mn mx : Int) (rem attempt seed : Nat) (res : Response)
    (hres : tr attempt = .ok res) (h2xx : 200 ≤ res.status ∧ res.status < 300) :
    searchLoop tr dec mn mx rem attempt seed =
      { outcome := .success res.body, attempts := 1, sleeps := [], reads := [res.body] } := by
  rw [searchLoop]
  simp only [hres]
  rw [if_neg (by omega)]

/-- A non-2xx response that is not retried (either because its status is
not retryable, or because no retries remain) ends the loop at once with the
classified terminal outcome, after reading up to 1 MiB of the body. -/
lemma searchLoop_terminal_non2xx (tr : Nat → TransportResult) (dec : List Nat → APIErrorBody)
    (mn mx : Int) (rem attempt seed : Nat) (res : Response)
    (hres : tr attempt = .ok res) (hn2 : res.status < 200 ∨ 300 ≤ res.status)
    (hterm : ¬ (res.status = 429 ∨ (500 ≤ res.status ∧ res.status ≤ 599)) ∨ rem = 0) :
    searchLoop tr dec mn mx rem attempt seed =
      { outcome := classifyTerminal res.status (dec (res.body.take (2 ^ 20))),
        attempts := 1, sleeps := [], reads := [res.body.take (2 ^ 20)] } := by
  rw [searchLoop]
  simp only [hres]
  rw [if_pos hn2]
  rcases hterm with hterm | rfl
  · rw [if_neg hterm]
  · split_ifs <;> rfl

/-- A transport result the loop does not retry ends it after one attempt. -/
lemma searchLoop_decisive (tr : Nat → TransportResult) (dec : List Nat → APIErrorBody)
    (mn mx : Int) (rem attempt seed : Nat)
    (h : ¬ RetryableOutcome (tr attempt)) :
    (searchLoop tr dec mn mx rem attempt seed).attempts = 1 := by
  cases htr : tr attempt with
  | err e => rw [htr] at h; exact absurd trivial h
  | ok res =>
    rw [htr] at h
    have hst : ¬ (res.status = 429 ∨ (500 ≤ res.status ∧ res.status ≤ 599)) := h
    rw [searchLoop]
    simp only [htr]
    split_ifs with h1 <;> rfl

/-- One retryable attempt with retries remaining: the loop sleeps once and
continues from the next attempt with some fresh LCG state and possibly one
more body read. -/
lemma searchLoop_retry_step (tr : Nat → TransportResult) (dec : List Nat → APIErrorBody)
    (mn mx : Int) (r attempt seed : Nat)
    (h : RetryableOutcome (tr attempt)) :
    ∃ d seed' rds,
      searchLoop tr dec mn mx (r + 1) attempt seed =
        { outcome := (searchLoop tr dec mn mx r (attempt + 1) seed').outcome,
          attempts := (searchLoop tr dec mn mx r (attempt + 1) seed').attempts + 1,
          sleeps := d :: (searchLoop tr dec mn mx r (attempt + 1) seed').sleeps,
          reads := rds ++ (searchLoop tr dec mn mx r (attempt + 1) seed').reads } := by
  cases htr : tr attempt with
  | err e =>
    refine ⟨(backoff attempt mn mx seed).1, (backoff attempt mn mx seed).2, [], ?_⟩
    rw [searchLoop]
    simp only [htr]
    rfl
  | ok res =>
    rw [htr] at h
    have hst : res.status = 429 ∨ (500 ≤ res.status ∧ res.status ≤ 599) := h
    have hn2 : res.status < 200 ∨ 300 ≤ res.status := retryable_status_non2xx hst
    refine ⟨(retryAfterSleep res.retryAfter attempt mn mx seed).1,
      (retryAfterSleep res.retryAfter attempt mn mx seed).2, [res.body.take (2 ^ 20)], ?_⟩
    rw [searchLoop]
    simp only [htr]
    rw [if_pos hn2, if_pos hst]
    rfl

/-- Retryable attempts are transparent: after `k` retryable attempts the
trace is the trace of the loop restarted `k` attempts further on (with some
LCG state), plus `k` extra attempts, `k` sleeps, and the reads so far. -/
lemma searchLoop_skip (tr : Nat → TransportResult) (dec : List Nat → APIErrorBody)
    (mn mx : Int) : ∀ k rem attempt seed : Nat, k ≤ rem →
    (∀ j, j < k → RetryableOutcome (tr (attempt + j))) →
    ∃ seed' ds rds, ds.length = k ∧
      searchLoop tr dec mn mx rem attempt seed =
        { outcome := (searchLoop tr dec mn mx (rem - k) (attempt + k) seed').outcome,
          attempts := (searchLoop tr dec mn mx (rem - k) (attempt + k) seed').attempts + k,
          sleeps := ds ++ (searchLoop tr dec mn mx (rem - k) (attempt + k) seed').sleeps,
          reads := rds ++ (searchLoop tr dec mn mx (rem - k) (attempt + k) seed').reads } := by
  intro k
  induction k with
  | zero =>
    intro rem attempt seed _ _
    exact ⟨seed, [], [], rfl, rfl⟩
  | succ k ih =>
    intro rem attempt seed hk hret
    obtain ⟨r, rfl⟩ : ∃ r, rem = r + 1 := ⟨rem - 1, by omega⟩
    obtain ⟨d, seed1, rds1, hstep⟩ :=
      searchLoop_retry_step tr dec mn mx r attempt seed (hret 0 (by omega))
    obtain ⟨seed', ds, rds, hlen, hrec⟩ := ih r (attempt + 1) seed1 (by omega)
      (fun j hj => by
        have hh := hret (j + 1) (by omega)
        rwa [show attempt + (j + 1) = attempt + 1 + j by omega] at hh)
    refine ⟨seed', d :: ds, rds1 ++ rds, by simp [hlen], ?_⟩
    rw [hstep, hrec]
    rw [show attempt + (k + 1) = attempt + 1 + k by omega]
    simp [Nat.add_assoc, List.append_assoc]

/-- With no retries remaining, a retryable attempt terminates at once with
a terminal error (never a sentinel or a success). -/
lemma searchLoop_zero_retryable (tr : Nat → TransportResult) (dec : List Nat → APIErrorBody)
    (mn mx : Int) (attempt seed : Nat) (h : RetryableOutcome (tr attempt)) :
    (searchLoop tr dec mn mx 0 attempt seed).attempts = 1 ∧
    TerminalErrorOutcome (searchLoop tr dec mn mx 0 attempt seed).outcome := by
  cases htr : tr attempt with
  | err e =>
    rw [searchLoop]
    simp only [htr]
    exact ⟨trivial, trivial⟩
  | ok res =>
    rw [htr] at h
    have hst : res.status = 429 ∨ (500 ≤ res.status ∧ res.status ≤ 599) := h
    have hn2 := retryable_status_non2xx hst
    rw [searchLoop]
    simp only [htr]
    rw [if_pos hn2, if_pos hst]
    exact ⟨by rfl, classifyTerminal_retryable hst _⟩

/-! ## Claims -/

/-- C1: every logical `Search` call performs at most `maxRetries + 1`
transport attempts; when every attempt yields a retryable failure
(429/5xx or a transport error), exactly `maxRetries + 1` attempts happen
and a terminal error is returned; and the loop stops with the first
attempt whose result is not retryable (first success or first terminal
failure). -/
theorem search_attempt_loop_bound (c : Client) (tr : Nat → TransportResult)
    (dec : List Nat → APIErrorBody) (seed : Nat) :
    (clientSearch c tr dec seed).attempts ≤ c.maxRetries.toNat + 1 ∧
    (c.apiKey ≠ "" → (∀ n, RetryableOutcome (tr n)) →
      (clientSearch c tr dec seed).attempts = c.maxRetries.toNat + 1 ∧
      TerminalErrorOutcome (clientSearch c tr dec seed).outcome) ∧
    (c.apiKey ≠ "" → ∀ k, k ≤ c.maxRetries.toNat →
      (∀ j, j < k → RetryableOutcome (tr j)) → ¬ RetryableOutcome (tr k) →
      (clientSearch c tr dec seed).attempts = k + 1) := by
  by_cases hkey : c.apiKey = ""
  · exact ⟨by simp [clientSearch, hkey], fun h => absurd hkey h, fun h => absurd hkey h⟩
  · simp only [clientSearch, if_neg hkey]
    refine ⟨searchLoop_attempts_le _ _ _ _ _ _ _, fun _ hall => ?_, fun _ k hk hprev hdec => ?_⟩
    · obtain ⟨seed', ds, rds, hlen, heq⟩ := searchLoop_skip tr dec c.minBackoff c.maxBackoff
        c.maxRetries.toNat c.maxRetries.toNat 0 seed le_rfl (fun j _ => hall (0 + j))
      rw [heq, Nat.sub_self]
      obtain ⟨ha, ho⟩ := searchLoop_zero_retryable tr dec c.minBackoff c.maxBackoff
        (0 + c.maxRetries.toNat) seed' (hall _)
      exact ⟨by dsimp only; rw [ha]; omega, by dsimp only; exact ho⟩
    · obtain ⟨seed', ds, rds, hlen, heq⟩ := searchLoop_skip tr dec c.minBackoff c.maxBackoff
        k c.maxRetries.toNat 0 seed hk
        (fun j hj => by rw [Nat.zero_add]; exact hprev j hj)
      rw [heq]
      have ha := searchLoop_decisive tr dec c.minBackoff c.maxBackoff
        (c.maxRetries.toNat - k) (0 + k) seed'
        (by rw [Nat.zero_add]; exact hdec)
      dsimp only
      rw [ha]
      omega

/-- C1 witness: a transport that always answers 503 exhausts the default
3 retries, for 4 attempts in total and a terminal error. -/
theorem search_attempt_loop_bound_witness :
    (clientSearch (newClient "k" []) (fun _ => .ok ⟨503, "", []⟩)
        (fun _ => ⟨none, ""⟩) 0).attempts = (newClient "k" []).maxRetries.toNat + 1 ∧
    TerminalErrorOutcome
      (clientSearch (newClient "k" []) (fun _ => .ok ⟨503, "", []⟩)
        (fun _ => ⟨none, ""⟩) 0).outcome :=
  (search_attempt_loop_bound (newClient "k" []) _ _ 0).2.1 (by decide)
    (fun _ => Or.inr ⟨by decide, by decide⟩)

/-- C2: a 401 (resp. 403) response on the first attempt makes `Search`
return the Unauthorized (resp. Forbidden) sentinel after exactly one
transport attempt and no sleep, regardless of the configured retries; in
particular this covers every transport that answers 401 (403) on every
attempt. -/
theorem search_auth_sentinel_single_attempt (c : Client) (tr : Nat → TransportResult)
    (dec : List Nat → APIErrorBody) (seed : Nat) (res : Response)
    (hkey : c.apiKey ≠ "") (h0 : tr 0 = .ok res) :
    (res.status = 401 →
      clientSearch c tr dec seed =
        { outcome := .unauthorized, attempts := 1, sleeps := [],
          reads := [res.body.take (2 ^ 20)] }) ∧
    (res.status = 403 →
      clientSearch c tr dec seed =
        { outcome := .forbidden, attempts := 1, sleeps := [],
          reads := [res.body.take (2 ^ 20)] }) := by
  constructor <;> intro hst <;>
    rw [clientSearch, if_neg hkey,
      searchLoop_terminal_non2xx tr dec _ _ _ 0 seed res h0 (by omega) (Or.inl (by omega))] <;>
    simp [classifyTerminal, hst]

/-- C2 witness: concrete always-401 and always-403 transports, with the
default client configuration (maxRetries 3). -/
theorem search_auth_sentinel_single_attempt_witness :
    clientSearch (newClient "k" []) (fun _ => .ok ⟨401, "", []⟩) (fun _ => ⟨none, ""⟩) 0
      = { outcome := .unauthorized, attempts := 1, sleeps := [], reads := [[]] } ∧
    clientSearch (newClient "k" []) (fun _ => .ok ⟨403, "", []⟩) (fun _ => ⟨none, ""⟩) 0
      = { outcome := .forbidden, attempts := 1, sleeps := [], reads := [[]] } :=
  ⟨((search_auth_sentinel_single_attempt (newClient "k" []) _ _ 0 ⟨401, "", []⟩
      (by decide) rfl).1 rfl).trans (by decide),
   ((search_auth_sentinel_single_attempt (newClient "k" []) _ _ 0 ⟨403, "", []⟩
      (by decide) rfl).2 rfl).trans (by decide)⟩

/-- C5: with an empty API key, `Search`, `Fetch` and `GetBalance` all fail
immediately with the configuration error and zero transport invocations;
`Fetch` does the same for an empty URL. -/
theorem config_error_no_transport (c : Client) (url : String) (tr : Nat → TransportResult)
    (t : TransportResult) (dec : List Nat → APIErrorBody) (decBal : List Nat → Option ℚ)
    (seed : Nat) (hkey : c.apiKey = "") :
    clientSearch c tr dec seed =
      { outcome := .configError "linkup: API key is empty", attempts := 0,
        sleeps := [], reads := [] } ∧
    clientFetch c url t dec =
      { outcome := .configError "linkup: API key is empty", attempts := 0,
        sleeps := [], reads := [] } ∧
    clientGetBalance c t dec decBal =
      { outcome := .configError "linkup: API key is empty", attempts := 0,
        sleeps := [], reads := [] } ∧
    (∀ c' : Client, c'.apiKey ≠ "" →
      clientFetch c' "" t dec =
        { outcome := .configError "linkup: fetch url is empty", attempts := 0,
          sleeps := [], reads := [] }) := by
  refine ⟨?_, ?_, ?_, fun c' hk' => ?_⟩
  · rw [clientSearch, if_pos hkey]
  · unfold clientFetch; rw [if_pos hkey]
  · unfold clientGetBalance; rw [if_pos hkey]
  · unfold clientFetch; rw [if_neg hk', if_pos rfl]

/-- C5 witness: a client built from an empty key, and a fetch with an empty
URL on a client with a key. -/
theorem config_error_no_transport_witness :
    clientSearch (newClient "" []) (fun _ => .ok ⟨200, "", []⟩) (fun _ => ⟨none, ""⟩) 0 =
      { outcome := .configError "linkup: API key is empty", attempts := 0,
        sleeps := [], reads := [] } ∧
    clientFetch (newClient "k" []) "" (.ok ⟨200, "", []⟩) (fun _ => ⟨none, ""⟩) =
      { outcome := .configError "linkup: fetch url is empty", attempts := 0,
        sleeps := [], reads := [] } :=
  ⟨(config_error_no_transport (newClient "" []) "u" (fun _ => .ok ⟨200, "", []⟩)
      (.ok ⟨200, "", []⟩) (fun _ => ⟨none, ""⟩) (fun _ => none) 0 rfl).1,
   (config_error_no_transport (newClient "" []) "u" (fun _ => .ok ⟨200, "", []⟩)
      (.ok ⟨200, "", []⟩) (fun _ => ⟨none, ""⟩) (fun _ => none) 0 rfl).2.2.2
     (newClient "k" []) (by decide)⟩

/-- C6: when the first non-retryable attempt is a 2xx response, `Search`
returns exactly the transport's body bytes, unmodified, and stops. -/
theorem search_success_verbatim (c : Client) (tr : Nat → TransportResult)
    (dec : List Nat → APIErrorBody) (seed k : Nat) (res : Response)
    (hkey : c.apiKey ≠ "") (hk : k ≤ c.maxRetries.toNat)
    (hprev : ∀ j, j < k → RetryableOutcome (tr j))
    (hres : tr k = .ok res) (h2xx : 200 ≤ res.status ∧ res.status < 300) :
    (clientSearch c tr dec seed).outcome = .success res.body ∧
    (clientSearch c tr dec seed).attempts = k + 1 := by
  rw [clientSearch, if_neg hkey]
  obtain ⟨seed', ds, rds, hlen, heq⟩ := searchLoop_skip tr dec c.minBackoff c.maxBackoff
    k c.maxRetries.toNat 0 seed hk (fun j hj => by rw [Nat.zero_add]; exact hprev j hj)
  rw [heq, searchLoop_success tr dec c.minBackoff c.maxBackoff
    (c.maxRetries.toNat - k) (0 + k) seed' res (by rw [Nat.zero_add]; exact hres) h2xx]
  exact ⟨by rfl, by dsimp only; omega⟩

/-- C6 witness: one transport error, then a 200 with body `[1, 2, 3]`,
which is returned verbatim on the second attempt. -/
theorem search_success_verbatim_witness :
    (clientSearch (newClient "k" [])
        (fun n => if n = 0 then .err "refused" else .ok ⟨200, "", [1, 2, 3]⟩)
        (fun _ => ⟨none, ""⟩) 0).outcome = .success [1, 2, 3] ∧
    (clientSearch (newClient "k" [])
        (fun n => if n = 0 then .err "refused" else .ok ⟨200, "", [1, 2, 3]⟩)
        (fun _ => ⟨none, ""⟩) 0).attempts = 1 + 1 :=
  search_success_verbatim (newClient "k" []) _ _ 0 1 ⟨200, "", [1, 2, 3]⟩
    (by decide) (by decide)
    (fun j hj => by
      have hj0 : j = 0 := by omega
      subst hj0; exact trivial)
    rfl ⟨by decide, by decide⟩

/-- C10: `Fetch` and `GetBalance` perform exactly one transport attempt and
never sleep, whatever the response status (including 429 and 5xx) and
whatever the configured retry policy. -/
theorem fetch_balance_single_attempt (c : Client) (url : String) (t : TransportResult)
    (dec : List Nat → APIErrorBody) (decBal : List Nat → Option ℚ)
    (hkey : c.apiKey ≠ "") (hurl : url ≠ "") :
    ((clientFetch c url t dec).attempts = 1 ∧ (clientFetch c url t dec).sleeps = []) ∧
    ((clientGetBalance c t dec decBal).attempts = 1 ∧
      (clientGetBalance c t dec decBal).sleeps = []) := by
  constructor
  · unfold clientFetch; rw [if_neg hkey, if_neg hurl]
    cases t with
    | err e => exact ⟨rfl, rfl⟩
    | ok res =>
      dsimp only
      split_ifs <;> exact ⟨rfl, rfl⟩
  · unfold clientGetBalance; rw [if_neg hkey]
    cases t with
    | err e => exact ⟨rfl, rfl⟩
    | ok res =>
      dsimp only
      split_ifs <;> exact ⟨rfl, rfl⟩

/-- C10 witness: a 429 response is terminal for both `Fetch` and
`GetBalance`: one attempt, no sleep. -/
theorem fetch_balance_single_attempt_witness :
    ((clientFetch (newClient "k" []) "u" (.ok ⟨429, "", []⟩) (fun _ => ⟨none, ""⟩)).attempts = 1 ∧
      (clientFetch (newClient "k" []) "u" (.ok ⟨429, "", []⟩) (fun _ => ⟨none, ""⟩)).sleeps = []) ∧
    ((clientGetBalance (newClient "k" []) (.ok ⟨429, "", []⟩) (fun _ => ⟨none, ""⟩)
        (fun _ => none)).attempts = 1 ∧
      (clientGetBalance (newClient "k" []) (.ok ⟨429, "", []⟩) (fun _ => ⟨none, ""⟩)
        (fun _ => none)).sleeps = []) :=
  fetch_balance_single_attempt (newClient "k" []) "u" (.ok ⟨429, "", []⟩)
    (fun _ => ⟨none, ""⟩) (fun _ => none) (by decide) (by decide)

/-- C9 (amended): on a 401/403 response `Search` does return the matching
sentinel, and the body bytes never influence which outcome is returned
(the conclusion holds for every decode result); but the sentinel is
produced only *after* up to 1 MiB of the response body has been read — the
read at types.go:211 happens before the status switch, so the 401/403
classification does not short-circuit the body read. -/
theorem search_auth_sentinel_after_body_read (c : Client) (tr : Nat → TransportResult)
    (seed k : Nat) (res : Response)
    (hkey : c.apiKey ≠ "") (hk : k ≤ c.maxRetries.toNat)
    (hprev : ∀ j, j < k → RetryableOutcome (tr j))
    (hres : tr k = .ok res) (hst : res.status = 401 ∨ res.status = 403) :
    ∀ dec : List Nat → APIErrorBody,
      (clientSearch c tr dec seed).outcome
        = (if res.status = 401 then SearchOutcome.unauthorized else .forbidden) ∧
      (clientSearch c tr dec seed).reads.getLast? = some (res.body.take (2 ^ 20)) := by
  intro dec
  rw [clientSearch, if_neg hkey]
  obtain ⟨seed', ds, rds, hlen, heq⟩ := searchLoop_skip tr dec c.minBackoff c.maxBackoff
    k c.maxRetries.toNat 0 seed hk (fun j hj => by rw [Nat.zero_add]; exact hprev j hj)
  rw [heq, searchLoop_terminal_non2xx tr dec c.minBackoff c.maxBackoff
    (c.maxRetries.toNat - k) (0 + k) seed' res (by rw [Nat.zero_add]; exact hres)
    (by rcases hst with h | h <;> omega)
    (Or.inl (by rcases hst with h | h <;> omega))]
  constructor
  · dsimp only
    rcases hst with h | h <;> simp [classifyTerminal, h]
  · dsimp only
    exact List.getLast?_concat _

/-- C9 witness: a 403 with body `[1]` on the first attempt. -/
theorem search_auth_sentinel_after_body_read_witness :
    (clientSearch (newClient "k" []) (fun _ => .ok ⟨403, "", [1]⟩)
        (fun _ => ⟨none, ""⟩) 0).outcome
      = (if (403 : Int) = 401 then SearchOutcome.unauthorized else .forbidden) ∧
    (clientSearch (newClient "k" []) (fun _ => .ok ⟨403, "", [1]⟩)
        (fun _ => ⟨none, ""⟩) 0).reads.getLast? = some ([1].take (2 ^ 20)) :=
  search_auth_sentinel_after_body_read (newClient "k" []) _ 0 0 ⟨403, "", [1]⟩
    (by decide) (by decide) (fun j hj => absurd hj (Nat.not_lt_zero j)) rfl
    (Or.inr rfl) (fun _ => ⟨none, ""⟩)

/-- C9 counterexample: on a 401 response with a two-byte body, the trace
records that the body bytes were read (capped at 1 MiB) before the
sentinel was returned — the claim's "without reading or inspecting the
response body" fails. -/
theorem search_auth_sentinel_after_body_read_cex :
    clientSearch (newClient "k" []) (fun _ => .ok ⟨401, "", [104, 105]⟩)
        (fun _ => ⟨none, ""⟩) 0
      = { outcome := .unauthorized, attempts := 1, sleeps := [],
          reads := [[104, 105]] } ∧
    ([[104, 105]] : List (List Nat)) ≠ [] := ⟨by decide, by decide⟩

/-- C7 (amended): for a terminal non-2xx outcome other than 401/403,
`Search` reads at most 1 MiB of the body and returns the decoded
`APIError` when its message is non-empty — carrying the response's status
unless the JSON body itself supplies a `status` field, which then
overwrites it — and otherwise the generic `http N` error carrying only the
response's status. -/
theorem search_error_body_decoding (c : Client) (tr : Nat → TransportResult)
    (dec : List Nat → APIErrorBody) (seed k : Nat) (res : Response)
    (hkey : c.apiKey ≠ "") (hk : k ≤ c.maxRetries.toNat)
    (hprev : ∀ j, j < k → RetryableOutcome (tr j))
    (hres : tr k = .ok res) (hn2 : res.status < 200 ∨ 300 ≤ res.status)
    (h401 : res.status ≠ 401) (h403 : res.status ≠ 403)
    (hterm : ¬ (res.status = 429 ∨ (500 ≤ res.status ∧ res.status ≤ 599))
      ∨ k = c.maxRetries.toNat) :
    (clientSearch c tr dec seed).outcome =
      (if (dec (res.body.take (2 ^ 20))).message ≠ "" then
        SearchOutcome.apiError
          ((dec (res.body.take (2 ^ 20))).statusField.getD res.status)
          (dec (res.body.take (2 ^ 20))).message
      else .genericHTTP res.status) ∧
    (clientSearch c tr dec seed).reads.getLast? = some (res.body.take (2 ^ 20)) := by
  rw [clientSearch, if_neg hkey]
  obtain ⟨seed', ds, rds, hlen, heq⟩ := searchLoop_skip tr dec c.minBackoff c.maxBackoff
    k c.maxRetries.toNat 0 seed hk (fun j hj => by rw [Nat.zero_add]; exact hprev j hj)
  have hterm' : ¬ (res.status = 429 ∨ (500 ≤ res.status ∧ res.status ≤ 599))
      ∨ c.maxRetries.toNat - k = 0 := by
    rcases hterm with h | h
    · exact Or.inl h
    · exact Or.inr (by omega)
  rw [heq, searchLoop_terminal_non2xx tr dec c.minBackoff c.maxBackoff
    (c.maxRetries.toNat - k) (0 + k) seed' res (by rw [Nat.zero_add]; exact hres) hn2 hterm']
  constructor
  · dsimp only
    unfold classifyTerminal
    rw [if_neg h401, if_neg h403]
  · dsimp only
    exact List.getLast?_concat _

/-- C7 witness: the spec's own example — a 422 whose body decodes to the
message `"bad param"` (and no `status` field) yields the structured error
with message `"bad param"` and status 422. -/
theorem search_error_body_decoding_witness :
    (clientSearch (newClient "k" []) (fun _ => .ok ⟨422, "", [7]⟩)
        (fun _ => ⟨none, "bad param"⟩) 0).outcome = .apiError 422 "bad param" ∧
    (clientSearch (newClient "k" []) (fun _ => .ok ⟨422, "", [7]⟩)
        (fun _ => ⟨none, "bad param"⟩) 0).reads.getLast? = some [7] := by
  have h := search_error_body_decoding (newClient "k" []) (fun _ => .ok ⟨422, "", [7]⟩)
    (fun _ => ⟨none, "bad param"⟩) 0 0 ⟨422, "", [7]⟩
    (by decide) (by decide) (fun j hj => absurd hj (Nat.not_lt_zero j)) rfl
    (by decide) (by decide) (by decide) (Or.inl (by decide))
  exact ⟨h.1.trans (by decide), h.2.trans (by decide)⟩

/-- C7 counterexample: a 422 response whose JSON body itself carries
`"status": 500` — `json.Unmarshal` overwrites the pre-seeded status field,
so the returned structured error carries status 500, not the response's
422, refuting "carrying the response's status". -/
theorem search_error_body_decoding_cex :
    (clientSearch (newClient "k" [])
        (fun _ => .ok ⟨422, "", strBytes "\x7b\"status\":500,\"message\":\"boom\"\x7d"⟩)
        (fun b => if b = strBytes "\x7b\"status\":500,\"message\":\"boom\"\x7d"
          then ⟨some 500, "boom"⟩ else ⟨none, ""⟩) 0).outcome
      = .apiError 500 "boom" ∧ (500 : Int) ≠ 422 := ⟨by decide, by decide⟩

/-- C3 (amended): on a retryable (429/5xx) response with retries remaining
the loop sleeps once and proceeds to attempt `n + 1`: the slept duration is
exactly `s` seconds when `Retry-After` parses to a positive integer `s`
whose nanosecond value fits in int64 (for larger `s` the int64
multiplication `time.Duration(secs) * time.Second` wraps, see the
counterexample), and is `backoff(n)` when the header is absent,
unparsable, zero or negative; with no retries remaining the loop instead
classifies the response terminally without sleeping. -/
theorem search_retryable_sleep (tr : Nat → TransportResult) (dec : List Nat → APIErrorBody)
    (mn mx : Int) (r attempt seed : Nat) (res : Response)
    (hres : tr attempt = .ok res)
    (hretry : res.status = 429 ∨ (500 ≤ res.status ∧ res.status ≤ 599)) :
    (searchLoop tr dec mn mx (r + 1) attempt seed =
      { outcome := (searchLoop tr dec mn mx r (attempt + 1)
          (retryAfterSleep res.retryAfter attempt mn mx seed).2).outcome,
        attempts := (searchLoop tr dec mn mx r (attempt + 1)
          (retryAfterSleep res.retryAfter attempt mn mx seed).2).attempts + 1,
        sleeps := (retryAfterSleep res.retryAfter attempt mn mx seed).1 ::
          (searchLoop tr dec mn mx r (attempt + 1)
            (retryAfterSleep res.retryAfter attempt mn mx seed).2).sleeps,
        reads := res.body.take (2 ^ 20) ::
          (searchLoop tr dec mn mx r (attempt + 1)
            (retryAfterSleep res.retryAfter attempt mn mx seed).2).reads }) ∧
    (∀ s : Int, atoi res.retryAfter = some s → 0 < s → s * 1000000000 < 2 ^ 63 →
      (retryAfterSleep res.retryAfter attempt mn mx seed).1 = s * 1000000000) ∧
    ((∀ s : Int, atoi res.retryAfter = some s → s ≤ 0) →
      retryAfterSleep res.retryAfter attempt mn mx seed = backoff attempt mn mx seed) ∧
    (searchLoop tr dec mn mx 0 attempt seed =
      { outcome := classifyTerminal res.status (dec (res.body.take (2 ^ 20))),
        attempts := 1, sleeps := [], reads := [res.body.take (2 ^ 20)] }) := by
  have hn2 := retryable_status_non2xx hretry
  refine ⟨?_, ?_, ?_, ?_⟩
  · rw [searchLoop]
    simp only [hres]
    rw [if_pos hn2, if_pos hretry]
  · intro s hs hpos hlt
    have hne : res.retryAfter ≠ "" := by
      intro h
      rw [h] at hs
      simp [atoi] at hs
    unfold retryAfterSleep
    rw [if_pos hne]
    simp only [hs]
    rw [if_pos hpos]
    exact wrap64_eq_self
      (le_trans (by norm_num) (mul_nonneg hpos.le (by norm_num))) hlt
  · intro hnp
    unfold retryAfterSleep
    by_cases hra : res.retryAfter = ""
    · rw [if_neg (by simp [hra])]
    · rw [if_pos hra]
      cases hat : atoi res.retryAfter with
      | none => rfl
      | some s =>
        dsimp only
        rw [if_neg (by have := hnp s hat; omega)]
  · exact searchLoop_terminal_non2xx tr dec mn mx 0 attempt seed res hres hn2 (Or.inr rfl)

/-- C3 witness: a 429 with `Retry-After: 7` sleeps exactly 7 seconds
(7000000000 ns). -/
theorem search_retryable_sleep_witness :
    (retryAfterSleep "7" 0 1 1 0).1 = 7 * 1000000000 :=
  (search_retryable_sleep
    (fun n => if n = 0 then .ok ⟨429, "7", [9]⟩ else .ok ⟨200, "", []⟩)
    (fun _ => ⟨none, ""⟩) 1 1 0 0 0 ⟨429, "7", [9]⟩ rfl (Or.inl rfl)).2.1 7
    (by decide) (by decide) (by decide)

/-- C3 counterexample: `Retry-After: 9223372037` parses as a positive
integer number of seconds, but its nanosecond value overflows int64, so
the duration handed to `time.Sleep` is a large negative number (an
immediate return) instead of 9223372037 seconds. -/
theorem search_retryable_sleep_cex :
    atoi "9223372037" = some 9223372037 ∧
    (clientSearch (newClient "k" [.withRetry 1 1 1])
        (fun n => if n = 0 then .ok ⟨429, "9223372037", []⟩ else .ok ⟨200, "", []⟩)
        (fun _ => ⟨none, ""⟩) 0).sleeps = [-9223372036709551616] ∧
    (-9223372036709551616 : Int) ≠ 9223372037 * 1000000000 :=
  ⟨by decide, by decide, by decide⟩

/-- The jitter factor used (in integer form) inside `backoff` equals the
idealized `0.8 + 0.4*randFloat()` of the Go source, as exact rationals. -/
lemma backoff_jitter_factor (s : Nat) :
    (0.8 : ℚ) + (0.4 : ℚ) * (randFloat s).1
      = ((20000 + lcgNext s % 10000 : Nat) : ℚ) / 25000 := by
  unfold randFloat
  rw [show (0.8 : ℚ) = 4 / 5 by norm_num, show (0.4 : ℚ) = 2 / 5 by norm_num]
  push_cast
  ring

/-- The value produced by `randFloat` lies in `[0, 1)` for every state. -/
lemma randFloat_mem (s : Nat) : 0 ≤ (randFloat s).1 ∧ (randFloat s).1 < 1 := by
  unfold randFloat
  constructor
  · positivity
  · rw [div_lt_one (by norm_num)]
    exact_mod_cast Nat.mod_lt (lcgNext s) (by norm_num)

/-- C4 (amended): whenever the exponential base `min * 2^n` does not
overflow int64 and the configured bounds are positive int64 durations with
`min ≤ max`, the delay `j = Backoff(n)` satisfies `0.8*b - 1 < j ≤ 1.2*b`
for `b = min(min*2^n, max)` (in exact arithmetic; the claimed closed
interval `[0.8*b, 1.2*b]` can be undershot by less than one nanosecond
because the float-to-Duration conversion truncates), and in particular `j`
is never negative; the jitter factor lies in `[0.8, 1.2)` for every value
of the randomness source.  Without the overflow bound the int64
multiplication `min * (1 << n)` wraps and the delay can be negative. -/
theorem backoff_delay_bounds (n : Nat) (mn mx : Int) (seed : Nat)
    (hmn : 0 < mn) (hle : mn ≤ mx) (_hmx : mx < 2 ^ 63) (hov : mn * 2 ^ n < 2 ^ 63) :
    (0 ≤ (backoff n mn mx seed).1) ∧
    (((min (mn * 2 ^ n) mx : Int) : ℚ) * (4 / 5) - 1 < ((backoff n mn mx seed).1 : ℚ)) ∧
    (((backoff n mn mx seed).1 : ℚ) ≤ ((min (mn * 2 ^ n) mx : Int) : ℚ) * (6 / 5)) ∧
    (∀ s : Nat, (4 / 5 : ℚ) ≤ (0.8 : ℚ) + (0.4 : ℚ) * (randFloat s).1 ∧
      (0.8 : ℚ) + (0.4 : ℚ) * (randFloat s).1 < 6 / 5) := by
  have h2n : (0 : Int) < 2 ^ n := by positivity
  have h1mn : (1 : Int) ≤ mn := hmn
  have hbase : (0 : Int) < mn * 2 ^ n := by positivity
  have h2nle : (2 : Int) ^ n ≤ mn * 2 ^ n := le_mul_of_one_le_left h2n.le h1mn
  have hw1 : wrap64 (2 ^ n) = 2 ^ n :=
    wrap64_eq_self (by linarith [h2n]) (lt_of_le_of_lt h2nle hov)
  have hw2 : wrap64 (mn * 2 ^ n) = mn * 2 ^ n :=
    wrap64_eq_self (by linarith [hbase]) hov
  have hiff : (if mn * 2 ^ n > mx then mx else mn * 2 ^ n) = min (mn * 2 ^ n) mx := by
    split_ifs with h
    · exact (min_eq_right h.le).symm
    · exact (min_eq_left (not_lt.mp h)).symm
  have hbod : backoff n mn mx seed
      = ((min (mn * 2 ^ n) mx * (20000 + (lcgNext seed % 10000 : Nat))).tdiv 25000,
         lcgNext seed) := by
    unfold backoff
    rw [hw1, hw2]
    dsimp only
    rw [hiff]
  have hklt : lcgNext seed % 10000 < 10000 := Nat.mod_lt _ (by norm_num)
  have hbpos : 0 < min (mn * 2 ^ n) mx := lt_min hbase (lt_of_lt_of_le hmn hle)
  have hfac : (0 : Int) ≤ 20000 + (lcgNext seed % 10000 : Nat) := by omega
  have hN : (0 : Int) ≤ min (mn * 2 ^ n) mx * (20000 + (lcgNext seed % 10000 : Nat)) :=
    mul_nonneg hbpos.le hfac
  have htd : (min (mn * 2 ^ n) mx * (20000 + (lcgNext seed % 10000 : Nat))).tdiv 25000
      = min (mn * 2 ^ n) mx * (20000 + (lcgNext seed % 10000 : Nat)) / 25000 :=
    Int.tdiv_eq_ediv hN (by norm_num)
  have hj : (backoff n mn mx seed).1
      = min (mn * 2 ^ n) mx * (20000 + (lcgNext seed % 10000 : Nat)) / 25000 := by
    rw [hbod, htd]
  have hmod := Int.ediv_add_emod
    (min (mn * 2 ^ n) mx * (20000 + (lcgNext seed % 10000 : Nat))) 25000
  have hm1 : 0 ≤ min (mn * 2 ^ n) mx * (20000 + (lcgNext seed % 10000 : Nat)) % 25000 :=
    Int.emod_nonneg _ (by norm_num)
  have hm2 : min (mn * 2 ^ n) mx * (20000 + (lcgNext seed % 10000 : Nat)) % 25000 < 25000 :=
    Int.emod_lt_of_pos _ (by norm_num)
  have hkk : ((lcgNext seed % 10000 : Nat) : Int) < 10000 := by exact_mod_cast hklt
  have hkk0 : (0 : Int) ≤ ((lcgNext seed % 10000 : Nat) : Int) := by omega
  have hNlo : 20000 * min (mn * 2 ^ n) mx
      ≤ min (mn * 2 ^ n) mx * (20000 + (lcgNext seed % 10000 : Nat)) := by nlinarith
  have hNhi : min (mn * 2 ^ n) mx * (20000 + (lcgNext seed % 10000 : Nat))
      ≤ 29999 * min (mn * 2 ^ n) mx := by nlinarith
  refine ⟨?_, ?_, ?_, ?_⟩
  · rw [hj]
    exact Int.ediv_nonneg hN (by norm_num)
  · rw [hj]
    have hql : 20000 * min (mn * 2 ^ n) mx - 25000
        < 25000 * (min (mn * 2 ^ n) mx * (20000 + (lcgNext seed % 10000 : Nat)) / 25000) := by
      omega
    have hq : (20000 : ℚ) * ((min (mn * 2 ^ n) mx : Int) : ℚ) - 25000
        < 25000 * ((min (mn * 2 ^ n) mx * (20000 + (lcgNext seed % 10000 : Nat)) / 25000
            : Int) : ℚ) := by
      exact_mod_cast hql
    linarith
  · rw [hj]
    have hqu : 25000 * (min (mn * 2 ^ n) mx * (20000 + (lcgNext seed % 10000 : Nat)) / 25000)
        ≤ 30000 * min (mn * 2 ^ n) mx := by omega
    have hq : (25000 : ℚ) * ((min (mn * 2 ^ n) mx * (20000 + (lcgNext seed % 10000 : Nat))
            / 25000 : Int) : ℚ)
        ≤ 30000 * ((min (mn * 2 ^ n) mx : Int) : ℚ) := by
      exact_mod_cast hqu
    linarith
  · intro s
    obtain ⟨hr0, hr1⟩ := randFloat_mem s
    rw [show (0.8 : ℚ) = 4 / 5 by norm_num, show (0.4 : ℚ) = 2 / 5 by norm_num]
    constructor <;> linarith

/-- C4 witness: default bounds at attempt 2 (base 1s, clamped below 4s). -/
theorem backoff_delay_bounds_witness :
    (0 ≤ (backoff 2 250000000 4000000000 0).1) ∧
    (((min ((250000000 : Int) * 2 ^ 2) 4000000000 : Int) : ℚ) * (4 / 5) - 1
      < ((backoff 2 250000000 4000000000 0).1 : ℚ)) ∧
    (((backoff 2 250000000 4000000000 0).1 : ℚ)
      ≤ ((min ((250000000 : Int) * 2 ^ 2) 4000000000 : Int) : ℚ) * (6 / 5)) :=
  have h := backoff_delay_bounds 2 250000000 4000000000 0
    (by decide) (by decide) (by decide) (by decide)
  ⟨h.1, h.2.1, h.2.2.1⟩

/-- C4 counterexample, two parts: (i) with `min = 1ns`, `max = 10ns`,
attempt 0 and LCG state 0 the delay truncates to 0, strictly below the
claimed lower endpoint `0.8 * min(min*2^0, max) = 0.8`; (ii) with the
default bounds (250ms, 4s) and attempt 36, `min * (1 << 36)` overflows
int64 and the delay is negative. -/
theorem backoff_delay_bounds_cex :
    ((backoff 0 1 10 0).1 = 0 ∧
      ¬ (((min ((1 : Int) * 2 ^ 0) 10 : Int) : ℚ) * (4 / 5)
          ≤ ((backoff 0 1 10 0).1 : ℚ))) ∧
    (backoff 36 250000000 4000000000 0).1 < 0 := by
  refine ⟨⟨by decide, ?_⟩, by decide⟩
  rw [show (backoff 0 1 10 0).1 = 0 from by decide,
    show (min ((1 : Int) * 2 ^ 0) 10 : Int) = 1 from by decide]
  norm_num

/-- Every option keeps `maxRetries` nonnegative: `WithRetry` only stores a
nonnegative value. -/
lemma applyOption_retries_nonneg (c : Client) (o : ClientOption)
    (h : 0 ≤ c.maxRetries) : 0 ≤ (applyOption c o).maxRetries := by
  cases o with
  | withBaseURL u => exact h
  | withHTTPClient => exact h
  | withUserAgent ua => exact h
  | withRetry r mnB mxB =>
    dsimp only [applyOption]
    split_ifs <;> simp_all

/-- An option whose `WithRetry` arguments satisfy `minBackoff ≤ maxBackoff`
preserves the invariant `minBackoff ≤ maxBackoff`. -/
lemma applyOption_backoff_le (c : Client) (o : ClientOption)
    (h : c.minBackoff ≤ c.maxBackoff) (hok : RetryArgsLE o) :
    (applyOption c o).minBackoff ≤ (applyOption c o).maxBackoff := by
  cases o with
  | withBaseURL u => exact h
  | withHTTPClient => exact h
  | withUserAgent ua => exact h
  | withRetry r mnB mxB =>
    have hmm : mnB ≤ mxB := hok
    dsimp only [applyOption]
    split_ifs <;> simp_all

/-- `maxRetries` stays nonnegative under any option sequence. -/
lemma foldl_retries_nonneg : ∀ (opts : List ClientOption) (c : Client),
    0 ≤ c.maxRetries → 0 ≤ (opts.foldl applyOption c).maxRetries
  | [], _, h => h
  | o :: rest, c, h =>
    foldl_retries_nonneg rest (applyOption c o) (applyOption_retries_nonneg c o h)

/-- `minBackoff ≤ maxBackoff` is preserved by any sequence of options whose
`WithRetry` arguments are ordered. -/
lemma foldl_backoff_le : ∀ (opts : List ClientOption) (c : Client),
    c.minBackoff ≤ c.maxBackoff → (∀ o ∈ opts, RetryArgsLE o) →
    (opts.foldl applyOption c).minBackoff ≤ (opts.foldl applyOption c).maxBackoff
  | [], _, h, _ => h
  | o :: rest, c, h, hall =>
    foldl_backoff_le rest (applyOption c o)
      (applyOption_backoff_le c o h (hall o (List.mem_cons_self o rest)))
      (fun o' ho' => hall o' (List.mem_cons_of_mem _ ho'))

/-- C8 (amended): for every option sequence the constructed client has
`maxRetries ≥ 0`; and `maxBackoff ≥ minBackoff` holds whenever every
`WithRetry` option in the sequence itself supplies `maxBackoff ≥
minBackoff`.  The unconditional claim fails: a `WithRetry` whose new
`minBackoff` exceeds both the supplied and the current `maxBackoff` leaves
`maxBackoff < minBackoff` (see the counterexample). -/
theorem newClient_retry_config (key : String) (opts : List ClientOption) :
    0 ≤ (newClient key opts).maxRetries ∧
    ((∀ o ∈ opts, RetryArgsLE o) →
      (newClient key opts).minBackoff ≤ (newClient key opts).maxBackoff) :=
  ⟨foldl_retries_nonneg opts _ (by norm_num),
   fun hall => foldl_backoff_le opts _ (by norm_num) hall⟩

/-- C8 witness: a well-formed `WithRetry(5, 100ns, 200ns)`. -/
theorem newClient_retry_config_witness :
    0 ≤ (newClient "k" [ClientOption.withRetry 5 100 200]).maxRetries ∧
    (newClient "k" [ClientOption.withRetry 5 100 200]).minBackoff
      ≤ (newClient "k" [ClientOption.withRetry 5 100 200]).maxBackoff :=
  ⟨(newClient_retry_config "k" [ClientOption.withRetry 5 100 200]).1,
   (newClient_retry_config "k" [ClientOption.withRetry 5 100 200]).2 (by decide)⟩

/-- C8 counterexample: `WithRetry(0, 5s, 1s)` on the defaults (max 4s)
stores `minBackoff = 5s` but refuses the new `maxBackoff` (1s < 5s),
leaving `maxBackoff = 4s < minBackoff = 5s` — construction does not
maintain the claimed invariant. -/
theorem newClient_retry_config_cex :
    (newClient "k" [ClientOption.withRetry 0 5000000000 1000000000]).maxBackoff
      < (newClient "k" [ClientOption.withRetry 0 5000000000 1000000000]).minBackoff :=
  by decide

end Linkup
